import Mathlib

-- Shallow embedding of the ai-interviewer backend core:
-- app/utils/state_machine.py, app/services/interview_service.py,
-- app/services/message_service.py, app/api/chat.py,
-- app/agents/integrity_judgment.py, app/schemas/message.py and
-- app/schemas/interview.py.

namespace AIInterviewer

/-- Lifecycle states, from class InterviewStatus in state_machine.py. -/
inductive InterviewStatus where
  | DRAFT
  | READY
  | ASSIGNED
  | IN_PROGRESS
  | COMPLETED
deriving DecidableEq, Repr

/-- Match analysis result, from class MatchAnalysis in schemas/interview.py. -/
structure MatchAnalysis where
  match_score : Int
  match_summary : String
  focus_areas : List String
deriving DecidableEq, Repr

/-- Final report, from class FinalReport in schemas/interview.py (integrity
flags kept abstract as strings; their inner structure is not needed here). -/
structure FinalReport where
  interview_score : Int
  summary : String
  gaps : List String
  meeting_expectations : List String
  integrity_flags : List String
deriving DecidableEq, Repr

/-- The Interview ORM entity: exactly the mapped columns of
models/interview.py (and of migration 001).  JSON columns are modelled by
the structured values stored into them.  Note there is no token_expires_at
column: interview_service.py:160 writes that name as an unmapped, transient
instance attribute that is never persisted (see InterviewInstance below). -/
structure Interview where
  status : InterviewStatus
  resume_path : Option String := none
  role_path : Option String := none
  job_offering_path : Option String := none
  match_analysis_json : Option MatchAnalysis := none
  target_questions : Nat
  difficulty_start : Int
  candidate_link_token : Option String := none
  report_json : Option FinalReport := none
deriving DecidableEq, Repr

/-- Error raised on invalid state transitions (class StateTransitionError in
state_machine.py); the two constructors mirror the two raise sites. -/
inductive StateTransitionError where
  | invalidTransition (current target : InterviewStatus)
  | preconditionNotMet (target : InterviewStatus)
deriving DecidableEq, Repr

/-- The TRANSITIONS table of InterviewStateMachine. -/
def TRANSITIONS : InterviewStatus → List InterviewStatus
  | .DRAFT => [.READY]
  | .READY => [.ASSIGNED]
  | .ASSIGNED => [.IN_PROGRESS]
  | .IN_PROGRESS => [.COMPLETED]
  | .COMPLETED => []

/-- The PRECONDITIONS table of InterviewStateMachine.  Python stores no entry
for DRAFT; `PRECONDITIONS.get` then returns None and the check is skipped,
which is the same as an always-true predicate. -/
def PRECONDITIONS : InterviewStatus → Interview → Bool
  | .READY, i => i.match_analysis_json.isSome
  | .ASSIGNED, i => i.candidate_link_token.isSome
  | .IN_PROGRESS, _ => true
  | .COMPLETED, i => i.report_json.isSome
  | .DRAFT, _ => true

/-- InterviewStateMachine.can_transition. -/
def can_transition (current_status new_status : InterviewStatus) : Bool :=
  (TRANSITIONS current_status).contains new_status

/-- InterviewStateMachine.validate_transition. -/
def validate_transition (interview : Interview) (new_status : InterviewStatus) :
    Except StateTransitionError Unit :=
  if ¬ can_transition interview.status new_status then
    Except.error (StateTransitionError.invalidTransition interview.status new_status)
  else if ¬ PRECONDITIONS new_status interview then
    Except.error (StateTransitionError.preconditionNotMet new_status)
  else
    Except.ok ()

/-- InterviewStateMachine.transition: validate, then mutate status.  In this
functional embedding the mutation is the returned record update; an error
return corresponds to the Python exception, which leaves the row untouched. -/
def transition (interview : Interview) (new_status : InterviewStatus) :
    Except StateTransitionError Interview :=
  match validate_transition interview new_status with
  | Except.error e => Except.error e
  | Except.ok _ => Except.ok { interview with status := new_status }

-- Spec-side formulation of the linear lifecycle, used to state the claims.

/-- The single successor state of the spec's linear lifecycle table. -/
def statusSucc : InterviewStatus → Option InterviewStatus
  | .DRAFT => some .READY
  | .READY => some .ASSIGNED
  | .ASSIGNED => some .IN_PROGRESS
  | .IN_PROGRESS => some .COMPLETED
  | .COMPLETED => none

/-- Spec-side target preconditions, spelled from the spec text: READY needs
matchAnalysis, ASSIGNED needs candidateLinkToken, IN_PROGRESS nothing,
COMPLETED needs report.  DRAFT is never a legal target, so its entry is
irrelevant. -/
def specTargetPrecondition (target : InterviewStatus) (i : Interview) : Bool :=
  match target with
  | .READY => i.match_analysis_json.isSome
  | .ASSIGNED => i.candidate_link_token.isSome
  | .IN_PROGRESS => true
  | .COMPLETED => i.report_json.isSome
  | .DRAFT => true

/-- The code's adjacency table agrees with the spec's linear successor map. -/
theorem can_transition_iff_statusSucc (c t : InterviewStatus) :
    can_transition c t = true ↔ statusSucc c = some t := by
  cases c <;> cases t <;> simp [can_transition, TRANSITIONS, statusSucc]

/-- Claim C1: transition(session, target) sets status to target exactly when
target is the single state reachable from the current status in the linear
table and the target-specific precondition holds; otherwise it returns a
StateTransitionError naming either the illegal transition or the unmet
precondition, and no field of the session is changed (a successful result
differs from the input only in status). -/
theorem transition_correct (i : Interview) (t : InterviewStatus) :
    (transition i t = Except.ok { i with status := t } ↔
      (statusSucc i.status = some t ∧ specTargetPrecondition t i = true)) ∧
    (∀ i2, transition i t = Except.ok i2 → i2 = { i with status := t }) ∧
    (statusSucc i.status ≠ some t →
      transition i t = Except.error (StateTransitionError.invalidTransition i.status t)) ∧
    (statusSucc i.status = some t → specTargetPrecondition t i = false →
      transition i t = Except.error (StateTransitionError.preconditionNotMet t)) := by
  have hpre : PRECONDITIONS t i = specTargetPrecondition t i := by
    cases t <;> rfl
  by_cases hc : can_transition i.status t
  · have hs : statusSucc i.status = some t := (can_transition_iff_statusSucc _ _).mp hc
    by_cases hp : PRECONDITIONS t i
    · refine ⟨?_, ?_, ?_, ?_⟩
      · simp [transition, validate_transition, hc, hp, hs, hpre ▸ hp]
      · intro i2 h2
        simpa [transition, validate_transition, hc, hp] using h2.symm
      · intro hne; exact absurd hs hne
      · intro _ hfalse
        rw [← hpre] at hfalse
        simp [hp] at hfalse
    · refine ⟨?_, ?_, ?_, ?_⟩
      · constructor
        · intro h; simp [transition, validate_transition, hc, hp] at h
        · rintro ⟨-, hsp⟩
          rw [← hpre] at hsp
          simp [hp] at hsp
      · intro i2 h2; simp [transition, validate_transition, hc, hp] at h2
      · intro hne; exact absurd hs hne
      · intro _ _; simp [transition, validate_transition, hc, hp]
  · have hs : statusSucc i.status ≠ some t := by
      intro h
      exact hc ((can_transition_iff_statusSucc _ _).mpr h)
    refine ⟨?_, ?_, ?_, ?_⟩
    · constructor
      · intro h; simp [transition, validate_transition, hc] at h
      · rintro ⟨hsome, -⟩; exact absurd hsome hs
    · intro i2 h2; simp [transition, validate_transition, hc] at h2
    · intro _; simp [transition, validate_transition, hc]
    · intro hsome _; exact absurd hsome hs

/-- Concrete match analysis used in witnesses. -/
def ma0 : MatchAnalysis :=
  { match_score := 8, match_summary := "ok", focus_areas := ["python"] }

/-- Concrete DRAFT session holding a match analysis, used in witnesses. -/
def draftWithAnalysis : Interview :=
  { status := InterviewStatus.DRAFT, match_analysis_json := some ma0,
    target_questions := 2, difficulty_start := 5 }

/-- Concrete instantiation of transition_correct: a DRAFT session with a match
analysis moves to READY, and the same session cannot jump to ASSIGNED. -/
theorem transition_correct_witness :
    (transition draftWithAnalysis InterviewStatus.READY =
      Except.ok { draftWithAnalysis with status := InterviewStatus.READY }) ∧
    (transition draftWithAnalysis InterviewStatus.ASSIGNED =
      Except.error
        (StateTransitionError.invalidTransition InterviewStatus.DRAFT
          InterviewStatus.ASSIGNED)) := by
  constructor
  · exact (transition_correct draftWithAnalysis InterviewStatus.READY).1.mpr (by decide)
  · exact (transition_correct draftWithAnalysis InterviewStatus.ASSIGNED).2.2.1 (by decide)

-- Message data model (schemas/message.py and models/message.py).

/-- Telemetry payload, from class Telemetry in schemas/message.py: the
response time is optional (defaults to None) and paste detection defaults
to false. -/
structure Telemetry where
  response_time_ms : Option Int := none
  paste_detected : Bool := false
deriving DecidableEq, Repr

/-- A persisted message row, from models/message.py; absent columns are
`none`, matching the MessageCreate defaults in schemas/message.py. -/
structure Message where
  role : String
  content : String
  question_number : Option Nat := none
  difficulty_level : Option Int := none
  answer_quality_score : Option Int := none
  cheat_certainty : Option Int := none
  telemetry : Option Telemetry := none
deriving DecidableEq, Repr

/-- Answer evaluation result, from class AnswerEvaluation in
schemas/message.py. -/
structure AnswerEvaluation where
  score : Int
  rationale : String
  evidence : String
  followup_hint : Option String := none
deriving DecidableEq, Repr

/-- Integrity assessment result, from class IntegrityAssessment in
schemas/interview.py. -/
structure IntegrityAssessment where
  cheat_certainty : Int
  indicators : List String
deriving DecidableEq, Repr

/-- The LLM-backed collaborators of the pipeline, abstracted as pure
functions: classify_message returns the classification type string,
evaluate_answer the evaluation, assess_integrity the assessment and
generate_question the next question text. -/
structure Collaborators where
  classify : String → String → String
  evaluate : String → String → AnswerEvaluation
  assess : String → String → Int → Bool → List String → IntegrityAssessment
  generate : List String → Int → String → Nat → String

/-- One collaborator invocation, recorded in the order the pipeline makes
them, with the exact arguments message_service.py passes. -/
inductive AgentCall where
  | classifyCall (question message : String)
  | evaluateCall (question message : String)
  | assessCall (question answer : String) (response_time_ms : Int)
      (paste_detected : Bool) (previous_answers : List String)
  | generateCall (focus_areas : List String) (difficulty_level : Int)
      (chat_history : String) (questions_asked : Nat)
deriving DecidableEq, Repr

/-- Recognizer for IntegrityAssessor invocations in a trace. -/
def isAssessCall : AgentCall → Bool
  | AgentCall.assessCall _ _ _ _ _ => true
  | _ => false

/-- Failure conditions of process_candidate_message.  invalidSessionState and
noActiveQuestion are the two ValueError raise sites; noneTypeComparison is
the Python TypeError raised when `None < 5000` is evaluated in the integrity
gate; missingMatchAnalysis is the AttributeError raised when
match_analysis_json is None at the focus-areas access. -/
inductive PipelineError where
  | invalidSessionState
  | noActiveQuestion
  | noneTypeComparison
  | missingMatchAnalysis
deriving DecidableEq, Repr

/-- The dict returned by process_candidate_message; keys absent from a
branch's dict are `none`. -/
structure PipelineResult where
  response : String
  interview_complete : Bool
  evaluation : Option AnswerEvaluation := none
  next_question_number : Option Nat := none
  classification : Option String := none
deriving DecidableEq, Repr

/-- Observable outcome of one pipeline call: the message list as committed
when the call returns or raises (each create_message commits immediately),
the returned dict or the raised error, and the collaborator-call trace. -/
structure PipelineOutcome where
  messages : List Message
  result : Except PipelineError PipelineResult
  trace : List AgentCall

/-- Python truthiness of an optional int (`msg.question_number` is falsy when
None or 0). -/
def qnTruthy : Option Nat → Bool
  | none => false
  | some n => n != 0

/-- The test `msg.role == "assistant" and msg.question_number` used both by
the current-question loop and the questions-asked count. -/
def isQuestionMsg (m : Message) : Bool :=
  m.role == "assistant" && qnTruthy m.question_number

/-- The reversed-order scan for the last assistant message with a truthy
question_number (message_service.py lines 113-119). -/
def findCurrentQuestion (messages : List Message) : Option Message :=
  messages.reverse.find? isQuestionMsg

/-- questions_asked at line 163: count of assistant messages with a truthy
question_number among the messages loaded at the start of the call. -/
def questions_asked_count (messages : List Message) : Nat :=
  (messages.filter isQuestionMsg).length

/-- previous_answers at lines 133-136: the contents of every candidate-role
message loaded at the start of the call, in order. -/
def previous_answers_of (messages : List Message) : List String :=
  (messages.filter (fun m => m.role == "candidate")).map (fun m => m.content)

/-- The fixed closing acknowledgment text (line 167). -/
def closingResponse : String :=
  "Thank you for completing the interview! Your responses have been recorded and will be reviewed by our team."

/-- The clarification template (line 216). -/
def clarificationResponse (last_question : String) : String :=
  "Let me clarify the question: " ++ last_question ++
    "\n\nPlease provide your answer when you\x27re ready."

/-- The off-topic redirect template (line 245). -/
def offTopicResponse (last_question : String) : String :=
  "Let\x27s stay focused on the current question: " ++ last_question

/-- chat_history at line 186: role-prefixed concatenation of all messages. -/
def chat_history_of (messages : List Message) : String :=
  String.intercalate "\n" (messages.map (fun m => m.role ++ ": " ++ m.content))

/-- The integrity gate (line 138): `paste_detected or response_time_ms < 5000`.
Python short-circuits on paste_detected; when it is false and the response
time is None, `None < 5000` raises TypeError. -/
def integrity_gate (t : Telemetry) : Except PipelineError Bool :=
  if t.paste_detected then Except.ok true
  else
    match t.response_time_ms with
    | none => Except.error PipelineError.noneTypeComparison
    | some v => Except.ok (decide (v < 5000))

/-- Python `x or 0` on an optional int (line 142). -/
def pyOrZero : Option Int → Int
  | none => 0
  | some v => v

/-- The candidate message persisted by the Answer branch (lines 148-160). -/
def answerCandidateMessage (i : Interview) (content : String)
    (telemetry : Telemetry) (question_number : Nat)
    (evaluation : AnswerEvaluation) (integrity : Option IntegrityAssessment) :
    Message :=
  { role := "candidate", content := content,
    question_number := some question_number,
    difficulty_level := some i.difficulty_start,
    answer_quality_score := some evaluation.score,
    cheat_certainty := integrity.map (fun a => a.cheat_certainty),
    telemetry := some telemetry }

/-- The closing acknowledgment message persisted at lines 169-176: role
assistant, no question_number, no other fields. -/
def closingMessage : Message :=
  { role := "assistant", content := closingResponse }

/-- The next-question message persisted at lines 196-205. -/
def nextQuestionMessage (i : Interview) (next_question : String)
    (question_number : Nat) : Message :=
  { role := "assistant", content := next_question,
    question_number := some (question_number + 1),
    difficulty_level := some i.difficulty_start }

/-- The raw candidate message persisted by the Clarification and OffTopic
branches (no evaluation fields). -/
def rawCandidateMessage (content : String) (telemetry : Telemetry) : Message :=
  { role := "candidate", content := content, telemetry := some telemetry }

/-- An assistant reply with no metadata, as persisted by the Clarification
and OffTopic branches. -/
def plainAssistantMessage (content : String) : Message :=
  { role := "assistant", content := content }

/-- MessageService.process_candidate_message (message_service.py lines
76-270), with the LLM collaborators passed in as pure functions and every
collaborator invocation recorded in the trace.  The not-found check on the
interview row is resolved by the caller handing us the row. -/
def process_candidate_message (C : Collaborators) (interview : Interview)
    (messages : List Message) (content : String) (telemetry : Telemetry) :
    PipelineOutcome :=
  if interview.status ≠ InterviewStatus.IN_PROGRESS then
    { messages := messages,
      result := Except.error PipelineError.invalidSessionState, trace := [] }
  else
    match findCurrentQuestion messages with
    | none =>
      { messages := messages,
        result := Except.error PipelineError.noActiveQuestion, trace := [] }
    | some qm =>
      if qm.content == "" then
        { messages := messages,
          result := Except.error PipelineError.noActiveQuestion, trace := [] }
      else
        let last_question := qm.content
        let question_number := qm.question_number.getD 0
        let classification := C.classify last_question content
        if classification == "Answer" then
          let evaluation := C.evaluate last_question content
          let previous_answers := previous_answers_of messages
          match integrity_gate telemetry with
          | Except.error e =>
            { messages := messages, result := Except.error e,
              trace := [AgentCall.classifyCall last_question content,
                        AgentCall.evaluateCall last_question content] }
          | Except.ok doAssess =>
            let integrity : Option IntegrityAssessment :=
              if doAssess then
                some (C.assess last_question content
                  (pyOrZero telemetry.response_time_ms)
                  telemetry.paste_detected previous_answers)
              else none
            let assessTrace : List AgentCall :=
              if doAssess then
                [AgentCall.assessCall last_question content
                  (pyOrZero telemetry.response_time_ms)
                  telemetry.paste_detected previous_answers]
              else []
            let baseTrace : List AgentCall :=
              [AgentCall.classifyCall last_question content,
               AgentCall.evaluateCall last_question content] ++ assessTrace
            let candidateMsg :=
              answerCandidateMessage interview content telemetry
                question_number evaluation integrity
            let messages1 := messages ++ [candidateMsg]
            let questions_asked := questions_asked_count messages
            if questions_asked ≥ interview.target_questions then
              { messages := messages1 ++ [closingMessage],
                result := Except.ok
                  { response := closingResponse, interview_complete := true,
                    evaluation := some evaluation },
                trace := baseTrace }
            else
              match interview.match_analysis_json with
              | none =>
                { messages := messages1,
                  result := Except.error PipelineError.missingMatchAnalysis,
                  trace := baseTrace }
              | some ma =>
                let focus_areas := ma.focus_areas
                let chat_history := chat_history_of messages
                let next_question := C.generate focus_areas
                  interview.difficulty_start chat_history questions_asked
                { messages := messages1 ++
                    [nextQuestionMessage interview next_question question_number],
                  result := Except.ok
                    { response := next_question, interview_complete := false,
                      evaluation := some evaluation,
                      next_question_number := some (question_number + 1) },
                  trace := baseTrace ++
                    [AgentCall.generateCall focus_areas
                      interview.difficulty_start chat_history questions_asked] }
        else if classification == "Clarification" then
          { messages := messages ++
              [rawCandidateMessage content telemetry,
               plainAssistantMessage (clarificationResponse last_question)],
            result := Except.ok
              { response := clarificationResponse last_question,
                interview_complete := false,
                classification := some "clarification" },
            trace := [AgentCall.classifyCall last_question content] }
        else
          { messages := messages ++
              [rawCandidateMessage content telemetry,
               plainAssistantMessage (offTopicResponse last_question)],
            result := Except.ok
              { response := offTopicResponse last_question,
                interview_complete := false,
                classification := some "off_topic" },
            trace := [AgentCall.classifyCall last_question content] }

/-- The truncation the integrity agent applies at integrity_judgment.py line
74 when formatting the prompt: Python `previous_answers[-3:]`. -/
def integrityContext (previous_answers : List String) : List String :=
  previous_answers.drop (previous_answers.length - 3)

-- Interview service (interview_service.py) and the chat start endpoint
-- (api/chat.py).  Row lookups are resolved by the caller handing us the row;
-- timestamps are integers and `now` is a parameter.

/-- Failure conditions of the interview service operations.
attributeErrorTokenExpiresAt is the Python AttributeError raised at
interview_service.py:195 when token_expires_at is read off a row on which
the unmapped attribute was never set (any freshly loaded row, since
models/interview.py maps no such column); it surfaces as an unhandled 500,
unlike the ValueError conditions. -/
inductive ServiceError where
  | notDraft
  | expiredToken
  | attributeErrorTokenExpiresAt
  | stateError (e : StateTransitionError)
deriving DecidableEq, Repr

/-- InterviewService.create_interview: a fresh DRAFT session. -/
def create_interview (target_questions : Nat) (difficulty_start : Int) :
    Interview :=
  { status := InterviewStatus.DRAFT, target_questions := target_questions,
    difficulty_start := difficulty_start }

/-- InterviewService.upload_documents. -/
def upload_documents (i : Interview)
    (resume_path role_path job_offering_path : String) :
    Except ServiceError Interview :=
  if i.status ≠ InterviewStatus.DRAFT then
    Except.error ServiceError.notDraft
  else
    Except.ok
      { i with
        resume_path := some resume_path,
        role_path := some role_path,
        job_offering_path := some job_offering_path }

/-- InterviewService.analyze_match: store the analyzer result, then
transition to READY.  The document-analysis collaborator's output is the
match_analysis argument. -/
def analyze_match (i : Interview) (match_analysis : MatchAnalysis) :
    Except ServiceError Interview :=
  match transition { i with match_analysis_json := some match_analysis }
      InterviewStatus.READY with
  | Except.error e => Except.error (ServiceError.stateError e)
  | Except.ok i2 => Except.ok i2

/-- Token validity window: 48 hours, in seconds (interview_service.py line
160). -/
def TOKEN_VALIDITY_SECONDS : Int := 48 * 3600

/-- An in-memory ORM instance of an interview: the mapped row plus the
transient token_expires_at attribute that interview_service.py:160 sets on
the Python object.  `none` means the attribute was never set on this
instance, so reading it raises AttributeError; the attribute lives only as
long as the instance does — it is never written to the database. -/
structure InterviewInstance where
  row : Interview
  token_expires_at : Option Int := none
deriving DecidableEq, Repr

/-- A row freshly loaded from the database, as every operation of a
production request sees it (app/database.py opens a new session per
request): only the mapped columns are populated, the unmapped
token_expires_at attribute is absent. -/
def loadInterview (i : Interview) : InterviewInstance :=
  { row := i, token_expires_at := none }

/-- InterviewService.assign_interview: store a fresh token, set the
48-hour expiry on the instance, then transition to ASSIGNED.  Only the
token is a mapped column; the expiry stays a transient attribute of the
returned instance (the commit at line 165 writes mapped columns only). -/
def assign_interview (i : Interview) (token : String) (now : Int) :
    Except ServiceError InterviewInstance :=
  match transition { i with candidate_link_token := some token }
      InterviewStatus.ASSIGNED with
  | Except.error e => Except.error (ServiceError.stateError e)
  | Except.ok row2 =>
    Except.ok { row := row2, token_expires_at := some (now + TOKEN_VALIDITY_SECONDS) }

/-- InterviewService.start_interview on the instance the session's identity
map returns for the token lookup.  Line 195 reads
`interview.token_expires_at and interview.token_expires_at < now`: if the
attribute was never set on this instance (every freshly loaded row), the
read raises AttributeError; if it is set and in the past, the expired-token
ValueError is raised; otherwise the row transitions to IN_PROGRESS. -/
def start_interview (inst : InterviewInstance) (now : Int) :
    Except ServiceError Interview :=
  match inst.token_expires_at with
  | none => Except.error ServiceError.attributeErrorTokenExpiresAt
  | some t =>
    if t < now then
      Except.error ServiceError.expiredToken
    else
      match transition inst.row InterviewStatus.IN_PROGRESS with
      | Except.error e => Except.error (ServiceError.stateError e)
      | Except.ok i2 => Except.ok i2

/-- One entry of the question_scores list built by complete_interview. -/
structure QuestionScore where
  score : Int
  rationale : String
deriving DecidableEq, Repr

/-- Python truthiness of `msg.answer_quality_score` (line 298). -/
def qualityTruthy : Option Int → Bool
  | none => false
  | some s => s != 0

/-- Python string of an optional int, as f-string formatting renders it. -/
def pyStrOptNat : Option Nat → String
  | none => "None"
  | some n => toString n

/-- question_scores at interview_service.py lines 296-302. -/
def question_scores_of (messages : List Message) : List QuestionScore :=
  (messages.filter
      (fun m => m.role == "candidate" && qualityTruthy m.answer_quality_score)).map
    (fun m => { score := m.answer_quality_score.getD 0,
                rationale := "Question " ++ pyStrOptNat m.question_number })

/-- transcript at lines 291-293. -/
def transcript_of (messages : List Message) : String :=
  String.intercalate "\n\n"
    (messages.map (fun m => m.role.toUpper ++ ": " ++ m.content))

/-- paste_count at lines 305-308: `msg.telemetry and
msg.telemetry.get("paste_detected")` (a stored telemetry dict is never
empty, so its truthiness is its presence). -/
def paste_count_of (messages : List Message) : Nat :=
  (messages.filter
    (fun m => (m.telemetry.map (fun t => t.paste_detected)).getD false)).length

/-- telemetry_summary at line 309. -/
def telemetry_summary_of (messages : List Message) : String :=
  "Total messages: " ++ toString messages.length ++
    ", Paste events: " ++ toString (paste_count_of messages)

/-- InterviewService.complete_interview: build transcript, scores and
telemetry summary, call the report synthesizer, store the report, then
transition to COMPLETED.  The synthesizer is a pure parameter receiving
exactly the arguments generate_report is called with (match_analysis_json,
transcript, question_scores, telemetry_summary). -/
def complete_interview
    (synthesize : Option MatchAnalysis → String → List QuestionScore → String →
      FinalReport)
    (i : Interview) (messages : List Message) :
    Except ServiceError Interview :=
  let transcript := transcript_of messages
  let question_scores := question_scores_of messages
  let telemetry_summary := telemetry_summary_of messages
  let final_report :=
    synthesize i.match_analysis_json transcript question_scores telemetry_summary
  match transition { i with report_json := some final_report }
      InterviewStatus.COMPLETED with
  | Except.error e => Except.error (ServiceError.stateError e)
  | Except.ok i2 => Except.ok i2

-- System-level operations: one session together with its message history,
-- stepped by the operations the API exposes.

/-- A session row together with its (cascade-owned) message history and the
transient token_expires_at attribute of its in-session ORM instance.  The
attribute survives from one operation to the next only in the shared-session
configuration of tests/conftest.py, where every request receives the same
session and its identity map returns the same instance; a production request
(fresh session per request, app/database.py) sees loadInterview instead,
with the attribute absent. -/
structure Sys where
  interview : Interview
  token_expires_at : Option Int := none
  messages : List Message
deriving DecidableEq, Repr

/-- The introduction message persisted by the chat start endpoint
(api/chat.py lines 50-57): assistant role, no question_number. -/
def introductionMessage (introduction : String) : Message :=
  { role := "assistant", content := introduction }

/-- The first question persisted by the chat start endpoint (lines 71-80):
question_number 1. -/
def firstQuestionMessage (i : Interview) (first_question : String) : Message :=
  { role := "assistant", content := first_question, question_number := some 1,
    difficulty_level := some i.difficulty_start }

/-- One API-level operation on a session, with every collaborator output it
consumes carried as data. -/
inductive Op where
  | uploadDocumentsOp (resume_path role_path job_offering_path : String)
  | analyzeMatchOp (match_analysis : MatchAnalysis)
  | assignInterviewOp (token : String) (now : Int)
  | startInterviewOp (now : Int) (introduction first_question : String)
  | processMessageOp (C : Collaborators) (content : String)
      (telemetry : Telemetry)
  | completeInterviewOp (synthesize : Option MatchAnalysis → String →
      List QuestionScore → String → FinalReport)
  | deleteInterviewOp

/-- Apply one operation.  `ok none` is deletion; `ok (some s2)` is the
surviving post-state.  A processMessageOp always leaves the post-state that
its commits produced, whether the pipeline returned or raised, because each
create_message commits immediately; the interview row is untouched either
way. -/
def applyOp (op : Op) (s : Sys) : Except ServiceError (Option Sys) :=
  match op with
  | Op.uploadDocumentsOp r ro j =>
    match upload_documents s.interview r ro j with
    | Except.error e => Except.error e
    | Except.ok i2 => Except.ok (some { s with interview := i2 })
  | Op.analyzeMatchOp ma =>
    match analyze_match s.interview ma with
    | Except.error e => Except.error e
    | Except.ok i2 => Except.ok (some { s with interview := i2 })
  | Op.assignInterviewOp token now =>
    match assign_interview s.interview token now with
    | Except.error e => Except.error e
    | Except.ok inst =>
      Except.ok (some
        { interview := inst.row,
          token_expires_at := inst.token_expires_at,
          messages := s.messages })
  | Op.startInterviewOp now introduction first_question =>
    match start_interview
        { row := s.interview, token_expires_at := s.token_expires_at } now with
    | Except.error e => Except.error e
    | Except.ok i2 =>
      Except.ok (some
        { interview := i2,
          token_expires_at := s.token_expires_at,
          messages := s.messages ++
            [introductionMessage introduction,
             firstQuestionMessage i2 first_question] })
  | Op.processMessageOp C content telemetry =>
    let out := process_candidate_message C s.interview s.messages content telemetry
    Except.ok (some { s with messages := out.messages })
  | Op.completeInterviewOp synthesize =>
    match complete_interview synthesize s.interview s.messages with
    | Except.error e => Except.error e
    | Except.ok i2 => Except.ok (some { s with interview := i2 })
  | Op.deleteInterviewOp => Except.ok none

/-- Run a list of operations in order, stopping at an error or deletion. -/
def runOps (ops : List Op) (s : Sys) : Except ServiceError (Option Sys) :=
  match ops with
  | [] => Except.ok (some s)
  | op :: rest =>
    match applyOp op s with
    | Except.error e => Except.error e
    | Except.ok none => Except.ok none
    | Except.ok (some s2) => runOps rest s2

-- Theorems for the pipeline claims.

/-- Claim C4: if the session is not IN_PROGRESS a pipeline call fails with
the InvalidSessionState condition, and if it is IN_PROGRESS but the history
has no prior assistant message bearing a questionNumber it fails with the
NoActiveQuestion condition; in both failure cases no collaborator is called
and no message is persisted. -/
theorem pipeline_preconditions (C : Collaborators) (i : Interview)
    (messages : List Message) (content : String) (telemetry : Telemetry) :
    (i.status ≠ InterviewStatus.IN_PROGRESS →
      process_candidate_message C i messages content telemetry =
        { messages := messages,
          result := Except.error PipelineError.invalidSessionState,
          trace := [] }) ∧
    (i.status = InterviewStatus.IN_PROGRESS →
      (∀ m ∈ messages, m.role = "assistant" → m.question_number = none) →
      process_candidate_message C i messages content telemetry =
        { messages := messages,
          result := Except.error PipelineError.noActiveQuestion,
          trace := [] }) := by
  constructor
  · intro h
    simp [process_candidate_message, h]
  · intro h hnone
    have hfq : findCurrentQuestion messages = none := by
      apply List.find?_eq_none.mpr
      intro m hm
      rw [List.mem_reverse] at hm
      simp only [isQuestionMsg, Bool.and_eq_true, beq_iff_eq, not_and]
      intro hrole
      rw [hnone m hm hrole]
      simp [qnTruthy]
    simp [process_candidate_message, h, hfq]

/-- Concrete instantiation of pipeline_preconditions: a READY session is
rejected with InvalidSessionState, and an IN_PROGRESS session whose history
is empty is rejected with NoActiveQuestion. -/
theorem pipeline_preconditions_witness :
    (process_candidate_message
        { classify := fun _ _ => "Answer",
          evaluate := fun _ _ => { score := 7, rationale := "r", evidence := "e" },
          assess := fun _ _ _ _ _ => { cheat_certainty := 0, indicators := [] },
          generate := fun _ _ _ _ => "Q" }
        { status := InterviewStatus.READY, target_questions := 2,
          difficulty_start := 5 }
        [] "hi" { response_time_ms := some 8000 } =
      { messages := [],
        result := Except.error PipelineError.invalidSessionState,
        trace := [] }) ∧
    (process_candidate_message
        { classify := fun _ _ => "Answer",
          evaluate := fun _ _ => { score := 7, rationale := "r", evidence := "e" },
          assess := fun _ _ _ _ _ => { cheat_certainty := 0, indicators := [] },
          generate := fun _ _ _ _ => "Q" }
        { status := InterviewStatus.IN_PROGRESS, target_questions := 2,
          difficulty_start := 5 }
        [] "hi" { response_time_ms := some 8000 } =
      { messages := [],
        result := Except.error PipelineError.noActiveQuestion,
        trace := [] }) := by
  constructor
  · exact (pipeline_preconditions _ _ _ _ _).1 (by simp)
  · exact (pipeline_preconditions _ _ _ _ _).2 rfl (by simp)

/-- Claim C10: the telemetry schema admits an absent responseTimeMs with
pasteDetected defaulting to false; the integrity gate is total when a
response time is present; but an Answer-classified message whose telemetry
is the admissible {none, false} makes the gate evaluate `None < 5000`, so
the call aborts with the TypeError before any message is persisted (only
the classifier and evaluator have run). -/
theorem telemetry_gate_crash (C : Collaborators) (i : Interview)
    (messages : List Message) (content : String) (qm : Message)
    (hstat : i.status = InterviewStatus.IN_PROGRESS)
    (hfind : findCurrentQuestion messages = some qm)
    (hcontent : qm.content ≠ "")
    (hcls : C.classify qm.content content = "Answer") :
    (({} : Telemetry) = { response_time_ms := none, paste_detected := false }) ∧
    (∀ (rt : Int) (pd : Bool),
      integrity_gate { response_time_ms := some rt, paste_detected := pd } =
        Except.ok (pd || decide (rt < 5000))) ∧
    (process_candidate_message C i messages content
        { response_time_ms := none, paste_detected := false } =
      { messages := messages,
        result := Except.error PipelineError.noneTypeComparison,
        trace := [AgentCall.classifyCall qm.content content,
                  AgentCall.evaluateCall qm.content content] }) := by
  refine ⟨rfl, ?_, ?_⟩
  · intro rt pd
    cases pd <;> simp [integrity_gate]
  · simp [process_candidate_message, hstat, hfind, hcontent, hcls, integrity_gate]

/-- Concrete instantiation of telemetry_gate_crash on a one-question
history. -/
theorem telemetry_gate_crash_witness :
    process_candidate_message
        { classify := fun _ _ => "Answer",
          evaluate := fun _ _ => { score := 7, rationale := "r", evidence := "e" },
          assess := fun _ _ _ _ _ => { cheat_certainty := 0, indicators := [] },
          generate := fun _ _ _ _ => "Q" }
        { status := InterviewStatus.IN_PROGRESS, target_questions := 2,
          difficulty_start := 5 }
        [{ role := "assistant", content := "Q1", question_number := some 1 }]
        "hi" { response_time_ms := none, paste_detected := false } =
      { messages := [{ role := "assistant", content := "Q1",
                       question_number := some 1 }],
        result := Except.error PipelineError.noneTypeComparison,
        trace := [AgentCall.classifyCall "Q1" "hi",
                  AgentCall.evaluateCall "Q1" "hi"] } := by
  exact (telemetry_gate_crash
    { classify := fun _ _ => "Answer",
      evaluate := fun _ _ => { score := 7, rationale := "r", evidence := "e" },
      assess := fun _ _ _ _ _ => { cheat_certainty := 0, indicators := [] },
      generate := fun _ _ _ _ => "Q" }
    { status := InterviewStatus.IN_PROGRESS, target_questions := 2,
      difficulty_start := 5 }
    [{ role := "assistant", content := "Q1", question_number := some 1 }]
    "hi"
    { role := "assistant", content := "Q1", question_number := some 1 }
    rfl rfl (by simp) rfl).2.2

/-- Claim C3: for an Answer-classified message, with questionsAsked counted
at the start of the call, reaching the target persists the candidate message
plus the fixed closing acknowledgment (no questionNumber) and reports
completion; otherwise the candidate message plus exactly one new assistant
question numbered previous+1 is persisted and completion is false with the
new number reported. -/
theorem answer_branch_progress (C : Collaborators) (i : Interview)
    (messages : List Message) (content : String) (telemetry : Telemetry)
    (qm : Message) (doAssess : Bool) (ma : MatchAnalysis)
    (hstat : i.status = InterviewStatus.IN_PROGRESS)
    (hfind : findCurrentQuestion messages = some qm)
    (hcontent : qm.content ≠ "")
    (hcls : C.classify qm.content content = "Answer")
    (hgate : integrity_gate telemetry = Except.ok doAssess)
    (hma : i.match_analysis_json = some ma) :
    (questions_asked_count messages ≥ i.target_questions →
      (process_candidate_message C i messages content telemetry).messages =
        messages ++
          [answerCandidateMessage i content telemetry (qm.question_number.getD 0)
            (C.evaluate qm.content content)
            (if doAssess then
              some (C.assess qm.content content (pyOrZero telemetry.response_time_ms)
                telemetry.paste_detected (previous_answers_of messages))
             else none),
           closingMessage] ∧
      closingMessage.question_number = none ∧
      closingMessage.content = closingResponse ∧
      (process_candidate_message C i messages content telemetry).result =
        Except.ok
          { response := closingResponse, interview_complete := true,
            evaluation := some (C.evaluate qm.content content) }) ∧
    (questions_asked_count messages < i.target_questions →
      (process_candidate_message C i messages content telemetry).messages =
        messages ++
          [answerCandidateMessage i content telemetry (qm.question_number.getD 0)
            (C.evaluate qm.content content)
            (if doAssess then
              some (C.assess qm.content content (pyOrZero telemetry.response_time_ms)
                telemetry.paste_detected (previous_answers_of messages))
             else none),
           nextQuestionMessage i
             (C.generate ma.focus_areas i.difficulty_start (chat_history_of messages)
               (questions_asked_count messages))
             (qm.question_number.getD 0)] ∧
      (nextQuestionMessage i
          (C.generate ma.focus_areas i.difficulty_start (chat_history_of messages)
            (questions_asked_count messages))
          (qm.question_number.getD 0)).question_number =
        some (qm.question_number.getD 0 + 1) ∧
      (process_candidate_message C i messages content telemetry).result =
        Except.ok
          { response :=
              C.generate ma.focus_areas i.difficulty_start (chat_history_of messages)
                (questions_asked_count messages),
            interview_complete := false,
            evaluation := some (C.evaluate qm.content content),
            next_question_number := some (qm.question_number.getD 0 + 1) }) := by
  constructor
  · intro hge
    refine ⟨?_, rfl, rfl, ?_⟩ <;>
      simp [process_candidate_message, hstat, hfind, hcontent, hcls, hgate, hge]
  · intro hlt
    have hnge : ¬ questions_asked_count messages ≥ i.target_questions :=
      Nat.not_le.mpr hlt
    refine ⟨?_, rfl, ?_⟩ <;>
      simp [process_candidate_message, hstat, hfind, hcontent, hcls, hgate, hnge, hma]

-- Shared concrete scenario used by the pipeline witnesses.

/-- Collaborators that always classify as Answer. -/
def Cans : Collaborators :=
  { classify := fun _ _ => "Answer",
    evaluate := fun _ _ => { score := 7, rationale := "r", evidence := "e" },
    assess := fun _ _ _ _ _ => { cheat_certainty := 42, indicators := ["fast"] },
    generate := fun _ _ _ _ => "Q2" }

/-- Collaborators that always classify as Clarification. -/
def Cclar : Collaborators :=
  { Cans with classify := fun _ _ => "Clarification" }

/-- An IN_PROGRESS demo session with two target questions. -/
def iDemo : Interview :=
  { status := InterviewStatus.IN_PROGRESS, match_analysis_json := some ma0,
    target_questions := 2, difficulty_start := 5,
    candidate_link_token := some "tok" }

/-- The first question message of the demo session. -/
def q1Msg : Message := firstQuestionMessage iDemo "Q1"

/-- Demo history: introduction plus question 1. -/
def demoMsgs : List Message := [introductionMessage "intro", q1Msg]

/-- Demo telemetry: slow answer, no paste. -/
def telDemo : Telemetry := { response_time_ms := some 8000 }

/-- Demo telemetry with paste detected. -/
def telPaste : Telemetry := { response_time_ms := some 8000, paste_detected := true }

/-- Demo evaluation value returned by Cans. -/
def evDemo : AnswerEvaluation := { score := 7, rationale := "r", evidence := "e" }

/-- Concrete instantiation of answer_branch_progress: one question asked of
two, so the answer is persisted and question 2 follows. -/
theorem answer_branch_progress_witness :
    (process_candidate_message Cans iDemo demoMsgs "ans" telDemo).messages =
      demoMsgs ++
        [answerCandidateMessage iDemo "ans" telDemo 1 evDemo none,
         nextQuestionMessage iDemo "Q2" 1] ∧
    (nextQuestionMessage iDemo "Q2" 1).question_number = some 2 ∧
    (process_candidate_message Cans iDemo demoMsgs "ans" telDemo).result =
      Except.ok
        { response := "Q2", interview_complete := false,
          evaluation := some evDemo, next_question_number := some 2 } := by
  exact (answer_branch_progress Cans iDemo demoMsgs "ans" telDemo q1Msg false ma0
    rfl rfl (by simp [q1Msg, firstQuestionMessage]) rfl rfl rfl).2 (by decide)

/-- Counterexample to claim C3 as stated: an Answer-classified call on an
IN_PROGRESS session with a current question and questionsAsked below the
target, whose telemetry is the schema-admissible {responseTimeMs absent,
pasteDetected false}, persists no message at all and reports nothing — the
call dies at the integrity gate — instead of persisting the candidate
message plus one new question as the claim requires. -/
theorem answer_branch_counterexample :
    Cans.classify "Q1" "ans" = "Answer" ∧
    iDemo.status = InterviewStatus.IN_PROGRESS ∧
    questions_asked_count demoMsgs < iDemo.target_questions ∧
    (process_candidate_message Cans iDemo demoMsgs "ans"
      { response_time_ms := none, paste_detected := false }).messages =
        demoMsgs ∧
    (process_candidate_message Cans iDemo demoMsgs "ans"
      { response_time_ms := none, paste_detected := false }).result =
        Except.error PipelineError.noneTypeComparison := by
  refine ⟨rfl, rfl, by decide, rfl, rfl⟩

/-- Shape of the Answer branch shared by the integrity claims: the trace
contains the assessor call exactly when the gate fired, with the arguments
message_service passes, and the first persisted message is the candidate
message. -/
theorem process_answer_shape (C : Collaborators) (i : Interview)
    (messages : List Message) (content : String) (telemetry : Telemetry)
    (qm : Message) (doAssess : Bool)
    (hstat : i.status = InterviewStatus.IN_PROGRESS)
    (hfind : findCurrentQuestion messages = some qm)
    (hcontent : qm.content ≠ "")
    (hcls : C.classify qm.content content = "Answer")
    (hgate : integrity_gate telemetry = Except.ok doAssess) :
    (process_candidate_message C i messages content telemetry).trace.filter
        isAssessCall =
      (if doAssess then
        [AgentCall.assessCall qm.content content (pyOrZero telemetry.response_time_ms)
          telemetry.paste_detected (previous_answers_of messages)]
       else []) ∧
    (∃ rest,
      (process_candidate_message C i messages content telemetry).messages =
        messages ++
          answerCandidateMessage i content telemetry (qm.question_number.getD 0)
            (C.evaluate qm.content content)
            (if doAssess then
              some (C.assess qm.content content (pyOrZero telemetry.response_time_ms)
                telemetry.paste_detected (previous_answers_of messages))
             else none) :: rest) := by
  by_cases hq : questions_asked_count messages ≥ i.target_questions
  · constructor
    · cases doAssess <;>
        simp [process_candidate_message, hstat, hfind, hcontent, hcls, hgate, hq,
          isAssessCall]
    · refine ⟨[closingMessage], ?_⟩
      simp [process_candidate_message, hstat, hfind, hcontent, hcls, hgate, hq]
  · constructor
    · cases hma : i.match_analysis_json with
      | none =>
        cases doAssess <;>
          simp [process_candidate_message, hstat, hfind, hcontent, hcls, hgate, hq,
            hma, isAssessCall]
      | some ma =>
        cases doAssess <;>
          simp [process_candidate_message, hstat, hfind, hcontent, hcls, hgate, hq,
            hma, isAssessCall]
    · cases hma : i.match_analysis_json with
      | none =>
        refine ⟨[], ?_⟩
        simp [process_candidate_message, hstat, hfind, hcontent, hcls, hgate, hq, hma]
      | some ma =>
        refine ⟨[nextQuestionMessage i
          (C.generate ma.focus_areas i.difficulty_start (chat_history_of messages)
            (questions_asked_count messages))
          (qm.question_number.getD 0)], ?_⟩
        simp [process_candidate_message, hstat, hfind, hcontent, hcls, hgate, hq, hma]

/-- Claim C5: for an Answer-classified message the assessor runs exactly once
when paste was detected or the response time is below 5000 ms, never when
paste is false and the response time is at least 5000 ms, and in the latter
case the persisted candidate message carries no cheatCertainty. -/
theorem integrity_assessment_conditional (C : Collaborators) (i : Interview)
    (messages : List Message) (content : String) (telemetry : Telemetry)
    (qm : Message)
    (hstat : i.status = InterviewStatus.IN_PROGRESS)
    (hfind : findCurrentQuestion messages = some qm)
    (hcontent : qm.content ≠ "")
    (hcls : C.classify qm.content content = "Answer") :
    (telemetry.paste_detected = true →
      ((process_candidate_message C i messages content telemetry).trace.filter
        isAssessCall).length = 1) ∧
    (∀ rt : Int, telemetry.paste_detected = false →
      telemetry.response_time_ms = some rt → rt < 5000 →
      ((process_candidate_message C i messages content telemetry).trace.filter
        isAssessCall).length = 1) ∧
    (∀ rt : Int, telemetry.paste_detected = false →
      telemetry.response_time_ms = some rt → 5000 ≤ rt →
      ((process_candidate_message C i messages content telemetry).trace.filter
        isAssessCall).length = 0 ∧
      (∃ rest,
        (process_candidate_message C i messages content telemetry).messages =
          messages ++
            answerCandidateMessage i content telemetry (qm.question_number.getD 0)
              (C.evaluate qm.content content) none :: rest) ∧
      (answerCandidateMessage i content telemetry (qm.question_number.getD 0)
        (C.evaluate qm.content content) none).cheat_certainty = none) := by
  refine ⟨?_, ?_, ?_⟩
  · intro hp
    have hgate : integrity_gate telemetry = Except.ok true := by
      simp [integrity_gate, hp]
    have h := (process_answer_shape C i messages content telemetry qm true
      hstat hfind hcontent hcls hgate).1
    rw [h]
    rfl
  · intro rt hp hrt hlt
    have hgate : integrity_gate telemetry = Except.ok true := by
      simp [integrity_gate, hp, hrt, hlt]
    have h := (process_answer_shape C i messages content telemetry qm true
      hstat hfind hcontent hcls hgate).1
    rw [h]
    rfl
  · intro rt hp hrt hge
    have hgate : integrity_gate telemetry = Except.ok false := by
      simp [integrity_gate, hp, hrt]
      omega
    have h := process_answer_shape C i messages content telemetry qm false
      hstat hfind hcontent hcls hgate
    refine ⟨?_, ?_, rfl⟩
    · rw [h.1]
      rfl
    · exact h.2

/-- Concrete instantiation of integrity_assessment_conditional: with paste
detected the assessor runs once; with no paste and an 8000 ms response it
never runs and the stored candidate message has no cheatCertainty. -/
theorem integrity_assessment_conditional_witness :
    (((process_candidate_message Cans iDemo demoMsgs "ans" telPaste).trace.filter
        isAssessCall).length = 1) ∧
    (((process_candidate_message Cans iDemo demoMsgs "ans" telDemo).trace.filter
        isAssessCall).length = 0 ∧
      (∃ rest,
        (process_candidate_message Cans iDemo demoMsgs "ans" telDemo).messages =
          demoMsgs ++
            answerCandidateMessage iDemo "ans" telDemo 1 evDemo none :: rest) ∧
      (answerCandidateMessage iDemo "ans" telDemo 1 evDemo none).cheat_certainty =
        none) := by
  constructor
  · exact (integrity_assessment_conditional Cans iDemo demoMsgs "ans" telPaste q1Msg
      rfl rfl (by simp [q1Msg, firstQuestionMessage]) rfl).1 rfl
  · exact (integrity_assessment_conditional Cans iDemo demoMsgs "ans" telDemo q1Msg
      rfl rfl (by simp [q1Msg, firstQuestionMessage]) rfl).2.2 8000 rfl rfl
      (by omega)

/-- Claim C6 (amended): whenever the assessor is invoked it receives as
previous answers the contents of all prior candidate-role messages of the
session, answers and non-answers alike, and the agent itself keeps only the
last up to 3 of them as style-comparison context. -/
theorem assessor_context_candidate_messages (C : Collaborators) (i : Interview)
    (messages : List Message) (content : String) (telemetry : Telemetry)
    (qm : Message)
    (hstat : i.status = InterviewStatus.IN_PROGRESS)
    (hfind : findCurrentQuestion messages = some qm)
    (hcontent : qm.content ≠ "")
    (hcls : C.classify qm.content content = "Answer")
    (hgate : integrity_gate telemetry = Except.ok true) :
    (process_candidate_message C i messages content telemetry).trace.filter
        isAssessCall =
      [AgentCall.assessCall qm.content content (pyOrZero telemetry.response_time_ms)
        telemetry.paste_detected (previous_answers_of messages)] ∧
    List.IsSuffix (integrityContext (previous_answers_of messages))
      (previous_answers_of messages) ∧
    (integrityContext (previous_answers_of messages)).length ≤ 3 := by
  refine ⟨?_, ?_, ?_⟩
  · have h := (process_answer_shape C i messages content telemetry qm true
      hstat hfind hcontent hcls hgate).1
    rw [h]
    rfl
  · exact List.drop_suffix _ _
  · rw [integrityContext, List.length_drop]
    omega

/-- Concrete instantiation of assessor_context_candidate_messages on the demo
history with paste detected: one assessor call with the (empty) candidate
history. -/
theorem assessor_context_candidate_messages_witness :
    (process_candidate_message Cans iDemo demoMsgs "ans" telPaste).trace.filter
        isAssessCall =
      [AgentCall.assessCall "Q1" "ans" 8000 true []] ∧
    List.IsSuffix (integrityContext (previous_answers_of demoMsgs))
      (previous_answers_of demoMsgs) ∧
    (integrityContext (previous_answers_of demoMsgs)).length ≤ 3 := by
  exact assessor_context_candidate_messages Cans iDemo demoMsgs "ans" telPaste q1Msg
    rfl rfl (by simp [q1Msg, firstQuestionMessage]) rfl rfl

/-- Demo session with a single target question, for the counterexample runs. -/
def iOne : Interview :=
  { status := InterviewStatus.IN_PROGRESS, match_analysis_json := some ma0,
    target_questions := 1, difficulty_start := 5,
    candidate_link_token := some "tok" }

/-- History after the start endpoint for iOne: introduction plus question 1. -/
def startMsgs : List Message :=
  [introductionMessage "intro", firstQuestionMessage iOne "Q1"]

/-- History after the candidate asked a clarification question: the raw
candidate message and the template reply have been persisted. -/
def msgsAfterClar : List Message :=
  (process_candidate_message Cclar iOne startMsgs "what do you mean?"
    { response_time_ms := some 9000 }).messages

/-- The pipeline outcome of the first real answer, with paste detected, after
the clarification exchange. -/
def outAfterAnswer : PipelineOutcome :=
  process_candidate_message Cans iOne msgsAfterClar "my answer"
    { response_time_ms := some 9000, paste_detected := true }

/-- Counterexample to claim C6 as stated: on this run the assessor is invoked
for the candidate's first answer, so the claimed context is empty, yet it
receives the clarification message "what do you mean?", which is not a prior
candidate answer (no message of the history carries an evaluation score). -/
theorem assessor_context_counterexample :
    outAfterAnswer.trace.filter isAssessCall =
      [AgentCall.assessCall "Q1" "my answer" 9000 true ["what do you mean?"]] ∧
    (msgsAfterClar.filter
      (fun m => m.role == "candidate" && m.answer_quality_score.isSome)).length
      = 0 := by
  exact ⟨rfl, rfl⟩

-- Helper lemmas about the service operations' effect on status.

/-- A successful transition moves the status to the single declared
successor. -/
theorem transition_ok_succ (i : Interview) (t : InterviewStatus) (i2 : Interview)
    (h : transition i t = Except.ok i2) :
    statusSucc i.status = some i2.status := by
  by_cases hc : can_transition i.status t = true
  · by_cases hp : PRECONDITIONS t i = true
    · have hi2 : { i with status := t } = i2 := by
        simp [transition, validate_transition, hc, hp] at h
        exact h
      rw [← hi2]
      exact (can_transition_iff_statusSucc _ _).mp hc
    · exfalso
      simp [transition, validate_transition, hc, hp] at h
  · exfalso
    simp [transition, validate_transition, hc] at h

/-- Unwrap the stateError re-wrapping the services apply to transition. -/
theorem service_wrap_ok (x : Except StateTransitionError Interview)
    (i2 : Interview)
    (h : (match x with
          | Except.error e => Except.error (ServiceError.stateError e)
          | Except.ok j => (Except.ok j : Except ServiceError Interview)) =
        Except.ok i2) :
    x = Except.ok i2 := by
  cases x with
  | error e => exact Except.noConfusion h
  | ok j => exact congrArg Except.ok (Except.ok.inj h)

/-- upload_documents never changes the status. -/
theorem upload_documents_status (i : Interview) (r ro j : String) (i2 : Interview)
    (h : upload_documents i r ro j = Except.ok i2) : i2.status = i.status := by
  by_cases hs : i.status = InterviewStatus.DRAFT
  · simp [upload_documents, hs] at h
    rw [← h]
    exact hs.symm
  · simp [upload_documents, hs] at h

/-- analyze_match advances the status by one lifecycle step. -/
theorem analyze_match_succ (i : Interview) (ma : MatchAnalysis) (i2 : Interview)
    (h : analyze_match i ma = Except.ok i2) :
    statusSucc i.status = some i2.status := by
  have ht := service_wrap_ok _ _ h
  simpa using transition_ok_succ _ _ _ ht

/-- assign_interview advances the row's status by one lifecycle step. -/
theorem assign_interview_succ (i : Interview) (token : String) (now : Int)
    (inst : InterviewInstance)
    (h : assign_interview i token now = Except.ok inst) :
    statusSucc i.status = some inst.row.status := by
  unfold assign_interview at h
  cases ht : transition { i with candidate_link_token := some token }
      InterviewStatus.ASSIGNED with
  | error e => rw [ht] at h; exact Except.noConfusion h
  | ok row2 =>
    rw [ht] at h
    simp only [Except.ok.injEq] at h
    rw [← h]
    simpa using transition_ok_succ _ _ _ ht

/-- start_interview advances the row's status by one lifecycle step. -/
theorem start_interview_succ (inst : InterviewInstance) (now : Int)
    (i2 : Interview) (h : start_interview inst now = Except.ok i2) :
    statusSucc inst.row.status = some i2.status := by
  unfold start_interview at h
  cases hattr : inst.token_expires_at with
  | none => rw [hattr] at h; exact Except.noConfusion h
  | some t =>
    rw [hattr] at h
    by_cases hlt : t < now
    · simp [hlt] at h
    · simp only [if_neg hlt] at h
      exact transition_ok_succ _ _ _ (service_wrap_ok _ _ h)

/-- complete_interview advances the status by one lifecycle step. -/
theorem complete_interview_succ
    (synthesize : Option MatchAnalysis → String → List QuestionScore → String →
      FinalReport)
    (i : Interview) (messages : List Message) (i2 : Interview)
    (h : complete_interview synthesize i messages = Except.ok i2) :
    statusSucc i.status = some i2.status := by
  have ht := service_wrap_ok _ _ h
  simpa using transition_ok_succ _ _ _ ht

/-- Claim C2: sessions are created in DRAFT, and every surviving step of any
system operation either leaves the status unchanged or advances it to the
single successor of the linear DRAFT, READY, ASSIGNED, IN_PROGRESS,
COMPLETED chain; COMPLETED has no successor, so nothing leaves it. -/
theorem lifecycle_linear :
    (∀ (target_questions : Nat) (difficulty_start : Int),
      (create_interview target_questions difficulty_start).status =
        InterviewStatus.DRAFT) ∧
    (statusSucc InterviewStatus.COMPLETED = none) ∧
    (∀ (op : Op) (s s2 : Sys), applyOp op s = Except.ok (some s2) →
      s2.interview.status = s.interview.status ∨
      statusSucc s.interview.status = some s2.interview.status) := by
  refine ⟨fun _ _ => rfl, rfl, ?_⟩
  intro op s s2 h
  cases op with
  | uploadDocumentsOp r ro j =>
    left
    simp only [applyOp] at h
    cases hu : upload_documents s.interview r ro j with
    | error e => rw [hu] at h; exact Except.noConfusion h
    | ok i2 =>
      rw [hu] at h
      simp only [Except.ok.injEq, Option.some.injEq] at h
      rw [← h]
      exact upload_documents_status _ _ _ _ _ hu
  | analyzeMatchOp ma =>
    right
    simp only [applyOp] at h
    cases hu : analyze_match s.interview ma with
    | error e => rw [hu] at h; exact Except.noConfusion h
    | ok i2 =>
      rw [hu] at h
      simp only [Except.ok.injEq, Option.some.injEq] at h
      rw [← h]
      exact analyze_match_succ _ _ _ hu
  | assignInterviewOp token now =>
    right
    simp only [applyOp] at h
    cases hu : assign_interview s.interview token now with
    | error e => rw [hu] at h; exact Except.noConfusion h
    | ok inst =>
      rw [hu] at h
      simp only [Except.ok.injEq, Option.some.injEq] at h
      rw [← h]
      exact assign_interview_succ _ _ _ _ hu
  | startInterviewOp now introduction first_question =>
    right
    simp only [applyOp] at h
    cases hu : start_interview
        { row := s.interview, token_expires_at := s.token_expires_at } now with
    | error e => rw [hu] at h; exact Except.noConfusion h
    | ok i2 =>
      rw [hu] at h
      simp only [Except.ok.injEq, Option.some.injEq] at h
      rw [← h]
      exact start_interview_succ _ _ _ hu
  | processMessageOp C content telemetry =>
    left
    simp only [applyOp] at h
    simp only [Except.ok.injEq, Option.some.injEq] at h
    rw [← h]
  | completeInterviewOp synthesize =>
    right
    simp only [applyOp] at h
    cases hu : complete_interview synthesize s.interview s.messages with
    | error e => rw [hu] at h; exact Except.noConfusion h
    | ok i2 =>
      rw [hu] at h
      simp only [Except.ok.injEq, Option.some.injEq] at h
      rw [← h]
      exact complete_interview_succ _ _ _ _ hu
  | deleteInterviewOp =>
    exfalso
    simp only [applyOp] at h
    simp at h

/-- A fresh demo session paired with an empty history. -/
def sysDraft : Sys := { interview := create_interview 2 5, messages := [] }

/-- The demo session after the analyze step. -/
def sysReady : Sys :=
  { interview := { draftWithAnalysis with status := InterviewStatus.READY },
    messages := [] }

/-- Concrete instantiation of lifecycle_linear: a fresh session is DRAFT, and
analyzing it steps DRAFT to READY. -/
theorem lifecycle_linear_witness :
    (create_interview 2 5).status = InterviewStatus.DRAFT ∧
    (sysReady.interview.status = sysDraft.interview.status ∨
      statusSucc sysDraft.interview.status = some sysReady.interview.status) := by
  refine ⟨lifecycle_linear.1 2 5, ?_⟩
  exact lifecycle_linear.2.2 (Op.analyzeMatchOp ma0) sysDraft sysReady rfl

/-- An ASSIGNED session as the database stores it: the token column is
mapped and persisted, the expiry never is (no such column exists in
models/interview.py or migration 001). -/
def assignedRow : Interview :=
  { status := InterviewStatus.ASSIGNED, match_analysis_json := some ma0,
    target_questions := 2, difficulty_start := 5,
    candidate_link_token := some "tok" }

/-- Claim C7 (code bug): the claim and the code's own docstring promise an
ExpiredToken failure for an expired link, but because token_expires_at is
only ever a transient unmapped attribute, every start_interview call on a
freshly loaded row (any production request, expired or not) dies with the
AttributeError of reading the absent attribute, never the ExpiredToken
condition.  The intended check, including the ExpiredToken failure on a
past expiry and the vacuous IN_PROGRESS precondition, is reachable only on
an instance still carrying the attribute from the same database session. -/
theorem expired_token_attribute_error :
    (∀ (i : Interview) (now : Int),
      start_interview (loadInterview i) now =
        Except.error ServiceError.attributeErrorTokenExpiresAt) ∧
    start_interview (loadInterview assignedRow) 200 =
      Except.error ServiceError.attributeErrorTokenExpiresAt ∧
    start_interview { row := assignedRow, token_expires_at := some 100 } 200 =
      Except.error ServiceError.expiredToken ∧
    PRECONDITIONS InterviewStatus.IN_PROGRESS assignedRow = true := by
  exact ⟨fun i now => rfl, rfl, rfl, rfl⟩

-- Claim C9: completion versus the question count.

/-- Report returned by the constant synthesizer in the completion
scenarios. -/
def r0 : FinalReport :=
  { interview_score := 5, summary := "s", gaps := [],
    meeting_expectations := [], integrity_flags := [] }

/-- A constant report synthesizer. -/
def synth0 :
    Option MatchAnalysis → String → List QuestionScore → String → FinalReport :=
  fun _ _ _ _ => r0

/-- An IN_PROGRESS session expecting three questions. -/
def i9 : Interview :=
  { status := InterviewStatus.IN_PROGRESS, match_analysis_json := some ma0,
    target_questions := 3, difficulty_start := 5,
    candidate_link_token := some "tok" }

/-- A one-question history: introduction, question 1, one scored answer. -/
def msgs9 : List Message :=
  [introductionMessage "intro", firstQuestionMessage i9 "Q1",
   answerCandidateMessage i9 "my answer" telDemo 1 evDemo none]

/-- Counterexample to claim C9 as stated: only 1 of 3 target questions has
been asked, yet the complete request succeeds, stores the report and moves
the session to COMPLETED. -/
theorem complete_early_counterexample :
    questions_asked_count msgs9 = 1 ∧
    i9.target_questions = 3 ∧
    complete_interview synth0 i9 msgs9 =
      Except.ok
        { i9 with
          report_json := some r0,
          status := InterviewStatus.COMPLETED } := by
  refine ⟨rfl, rfl, rfl⟩

/-- Claim C9 (amended): completion is not guarded by the question count: a
complete request on an IN_PROGRESS session always succeeds, whatever the
number of questioned assistant messages, storing the synthesized report and
moving to COMPLETED; it fails exactly when the session is not IN_PROGRESS,
with the invalid-transition error. -/
theorem complete_unguarded
    (synthesize : Option MatchAnalysis → String → List QuestionScore → String →
      FinalReport)
    (i : Interview) (messages : List Message) :
    (i.status = InterviewStatus.IN_PROGRESS →
      complete_interview synthesize i messages =
        Except.ok
          { i with
            report_json := some (synthesize i.match_analysis_json
              (transcript_of messages) (question_scores_of messages)
              (telemetry_summary_of messages)),
            status := InterviewStatus.COMPLETED }) ∧
    (i.status ≠ InterviewStatus.IN_PROGRESS →
      complete_interview synthesize i messages =
        Except.error (ServiceError.stateError
          (StateTransitionError.invalidTransition i.status
            InterviewStatus.COMPLETED))) := by
  constructor
  · intro h
    simp [complete_interview, transition, validate_transition, can_transition,
      TRANSITIONS, PRECONDITIONS, h]
  · intro h
    have hc : can_transition i.status InterviewStatus.COMPLETED = false := by
      cases hs : i.status <;> simp_all [can_transition, TRANSITIONS]
    simp [complete_interview, transition, validate_transition, hc]

/-- Concrete instantiation of complete_unguarded: the short session
completes; a DRAFT session is refused with the invalid transition. -/
theorem complete_unguarded_witness :
    complete_interview synth0 i9 msgs9 =
      Except.ok
        { i9 with
          report_json := some r0,
          status := InterviewStatus.COMPLETED } ∧
    complete_interview synth0 draftWithAnalysis [] =
      Except.error (ServiceError.stateError
        (StateTransitionError.invalidTransition InterviewStatus.DRAFT
          InterviewStatus.COMPLETED)) := by
  constructor
  · exact (complete_unguarded synth0 i9 msgs9).1 rfl
  · exact (complete_unguarded synth0 draftWithAnalysis []).2 (by decide)

-- Claim C8: where question numbers appear.

/-- The run for the C8 counterexample: the full lifecycle followed by one
Answer-classified message. -/
def demoOps : List Op :=
  [Op.uploadDocumentsOp "r.pdf" "ro.pdf" "j.pdf",
   Op.analyzeMatchOp ma0,
   Op.assignInterviewOp "tok" 0,
   Op.startInterviewOp 0 "intro" "Q1",
   Op.processMessageOp Cans "my answer" telDemo]

/-- The question numbers carried by candidate-role messages of a surviving
run result. -/
def candidateQNs (r : Except ServiceError (Option Sys)) : List (Option Nat) :=
  match r with
  | Except.ok (some s) =>
    (s.messages.filter
      (fun m => m.role == "candidate" && m.question_number.isSome)).map
      (fun m => m.question_number)
  | _ => []

/-- Counterexample to claim C8 as stated: a history produced by the system's
own operations contains a candidate message carrying questionNumber 1 (the
Answer branch stamps the candidate message with the answered question's
number). -/
theorem candidate_question_number_counterexample :
    candidateQNs (runOps demoOps sysDraft) = [some 1] := by rfl

/-- The number of the current question in a history: the question_number of
the message the reversed scan finds (0 when none is found, matching the
Python loop initializer in message_service.py lines 113-119). -/
def currentQuestionNumber (messages : List Message) : Nat :=
  match findCurrentQuestion messages with
  | some qm => qm.question_number.getD 0
  | none => 0

/-- Every pipeline call appends one of three message shapes: nothing (an
error path), the raw candidate message plus a clarification or off-topic
reply, or the evaluated candidate message stamped with the current question
number followed by the closing acknowledgment, nothing (the crash on a
missing match analysis), or one new question. -/
theorem process_messages_shape (C : Collaborators) (i : Interview)
    (messages : List Message) (content : String) (telemetry : Telemetry) :
    (process_candidate_message C i messages content telemetry).messages =
      messages ∨
    (∃ reply,
      (process_candidate_message C i messages content telemetry).messages =
        messages ++
          [rawCandidateMessage content telemetry, plainAssistantMessage reply]) ∨
    (∃ evaluation integrity rest,
      (process_candidate_message C i messages content telemetry).messages =
        messages ++
          answerCandidateMessage i content telemetry
            (currentQuestionNumber messages) evaluation integrity :: rest ∧
      (rest = [closingMessage] ∨ rest = [] ∨
        ∃ next_question, rest =
          [nextQuestionMessage i next_question (currentQuestionNumber messages)])) := by
  by_cases h1 : i.status = InterviewStatus.IN_PROGRESS
  case neg =>
    left
    simp [process_candidate_message, h1]
  cases hf : findCurrentQuestion messages with
  | none =>
    left
    simp [process_candidate_message, h1, hf]
  | some qm =>
    by_cases h2 : qm.content = ""
    case pos =>
      left
      simp [process_candidate_message, h1, hf, h2]
    by_cases h3 : C.classify qm.content content = "Answer"
    case neg =>
      by_cases h4 : C.classify qm.content content = "Clarification"
      case pos =>
        right; left
        exact ⟨clarificationResponse qm.content,
          by simp [process_candidate_message, h1, hf, h2, h3, h4]⟩
      case neg =>
        right; left
        exact ⟨offTopicResponse qm.content,
          by simp [process_candidate_message, h1, hf, h2, h3, h4]⟩
    case pos =>
      cases hg : integrity_gate telemetry with
      | error e =>
        left
        simp [process_candidate_message, h1, hf, h2, h3, hg]
      | ok doAssess =>
        right; right
        refine ⟨C.evaluate qm.content content,
          if doAssess then
            some (C.assess qm.content content (pyOrZero telemetry.response_time_ms)
              telemetry.paste_detected (previous_answers_of messages))
          else none, ?_⟩
        by_cases hq : questions_asked_count messages ≥ i.target_questions
        case pos =>
          refine ⟨[closingMessage], ?_, Or.inl rfl⟩
          simp [process_candidate_message, h1, hf, h2, h3, hg, hq,
            currentQuestionNumber]
        case neg =>
          cases hma : i.match_analysis_json with
          | none =>
            refine ⟨[], ?_, Or.inr (Or.inl rfl)⟩
            simp [process_candidate_message, h1, hf, h2, h3, hg, hq, hma,
              currentQuestionNumber]
          | some ma =>
            refine ⟨[nextQuestionMessage i
                (C.generate ma.focus_areas i.difficulty_start
                  (chat_history_of messages) (questions_asked_count messages))
                (currentQuestionNumber messages)], ?_,
              Or.inr (Or.inr ⟨_, rfl⟩)⟩
            simp [process_candidate_message, h1, hf, h2, h3, hg, hq, hma,
              currentQuestionNumber]

/-- Claim C8 (amended): every operation appends messages of enumerated
shapes, so a questionNumber appears only where those shapes put one: the
introduction, the raw candidate message of a clarification or off-topic
turn, the template reply, and the closing acknowledgment carry none; the
first question carries number 1; the evaluated (Answer-classified)
candidate message is stamped with the number of the current question it
answers; and a generated next question carries that number plus one. -/
theorem question_number_stamped :
    ∀ (op : Op) (s s2 : Sys), applyOp op s = Except.ok (some s2) →
      s2.messages = s.messages ∨
      (∃ introduction i2 first_question,
        s2.messages = s.messages ++
          [introductionMessage introduction,
           firstQuestionMessage i2 first_question] ∧
        (introductionMessage introduction).question_number = none ∧
        (firstQuestionMessage i2 first_question).question_number = some 1) ∨
      (∃ content telemetry reply,
        s2.messages = s.messages ++
          [rawCandidateMessage content telemetry, plainAssistantMessage reply] ∧
        (rawCandidateMessage content telemetry).question_number = none ∧
        (plainAssistantMessage reply).question_number = none) ∨
      (∃ i content telemetry evaluation integrity rest,
        s2.messages = s.messages ++
          answerCandidateMessage i content telemetry
            (currentQuestionNumber s.messages) evaluation integrity :: rest ∧
        (answerCandidateMessage i content telemetry
          (currentQuestionNumber s.messages) evaluation integrity).role =
            "candidate" ∧
        (answerCandidateMessage i content telemetry
          (currentQuestionNumber s.messages) evaluation integrity).question_number =
            some (currentQuestionNumber s.messages) ∧
        (answerCandidateMessage i content telemetry
          (currentQuestionNumber s.messages) evaluation integrity).answer_quality_score =
            some evaluation.score ∧
        ((rest = [closingMessage] ∧ closingMessage.question_number = none) ∨
         rest = [] ∨
         (∃ next_question,
           rest = [nextQuestionMessage i next_question
             (currentQuestionNumber s.messages)] ∧
           (nextQuestionMessage i next_question
             (currentQuestionNumber s.messages)).question_number =
               some (currentQuestionNumber s.messages + 1)))) := by
  intro op s s2 h
  cases op with
  | uploadDocumentsOp r ro j =>
    left
    simp only [applyOp] at h
    cases hu : upload_documents s.interview r ro j with
    | error e => rw [hu] at h; exact Except.noConfusion h
    | ok i2 =>
      rw [hu] at h
      simp only [Except.ok.injEq, Option.some.injEq] at h
      rw [← h]
  | analyzeMatchOp ma =>
    left
    simp only [applyOp] at h
    cases hu : analyze_match s.interview ma with
    | error e => rw [hu] at h; exact Except.noConfusion h
    | ok i2 =>
      rw [hu] at h
      simp only [Except.ok.injEq, Option.some.injEq] at h
      rw [← h]
  | assignInterviewOp token now =>
    left
    simp only [applyOp] at h
    cases hu : assign_interview s.interview token now with
    | error e => rw [hu] at h; exact Except.noConfusion h
    | ok inst =>
      rw [hu] at h
      simp only [Except.ok.injEq, Option.some.injEq] at h
      rw [← h]
  | startInterviewOp now introduction first_question =>
    simp only [applyOp] at h
    cases hu : start_interview
        { row := s.interview, token_expires_at := s.token_expires_at } now with
    | error e => rw [hu] at h; exact Except.noConfusion h
    | ok i2 =>
      rw [hu] at h
      simp only [Except.ok.injEq, Option.some.injEq] at h
      right; left
      exact ⟨introduction, i2, first_question, by rw [← h], rfl, rfl⟩
  | processMessageOp C content telemetry =>
    simp only [applyOp] at h
    simp only [Except.ok.injEq, Option.some.injEq] at h
    have hshape := process_messages_shape C s.interview s.messages content telemetry
    rcases hshape with hs | ⟨reply, hs⟩ | ⟨evaluation, integrity, rest, hs, hrest⟩
    · left
      rw [← h]
      exact hs
    · right; right; left
      exact ⟨content, telemetry, reply, by rw [← h]; exact hs, rfl, rfl⟩
    · right; right; right
      refine ⟨s.interview, content, telemetry, evaluation, integrity, rest,
        by rw [← h]; exact hs, rfl, rfl, rfl, ?_⟩
      rcases hrest with hrest | hrest | ⟨next_question, hrest⟩
      · exact Or.inl ⟨hrest, rfl⟩
      · exact Or.inr (Or.inl hrest)
      · exact Or.inr (Or.inr ⟨next_question, hrest, rfl⟩)
  | completeInterviewOp synthesize =>
    left
    simp only [applyOp] at h
    cases hu : complete_interview synthesize s.interview s.messages with
    | error e => rw [hu] at h; exact Except.noConfusion h
    | ok i2 =>
      rw [hu] at h
      simp only [Except.ok.injEq, Option.some.injEq] at h
      rw [← h]
  | deleteInterviewOp =>
    exfalso
    simp only [applyOp] at h
    simp at h

/-- The demo session in progress, with the transient expiry attribute the
shared-session flow leaves on its instance. -/
def sysInProg : Sys :=
  { interview := iDemo, token_expires_at := some 172800, messages := demoMsgs }

/-- The demo session after one Answer-classified message: the evaluated
candidate message stamped with question 1, then question 2. -/
def sysAnswered : Sys :=
  { interview := iDemo, token_expires_at := some 172800,
    messages := demoMsgs ++
      [answerCandidateMessage iDemo "ans" telDemo 1 evDemo none,
       nextQuestionMessage iDemo "Q2" 1] }

/-- Concrete instantiation of question_number_stamped on the Answer step of
the demo session. -/
theorem question_number_stamped_witness :
    sysAnswered.messages = sysInProg.messages ∨
    (∃ introduction i2 first_question,
      sysAnswered.messages = sysInProg.messages ++
        [introductionMessage introduction,
         firstQuestionMessage i2 first_question] ∧
      (introductionMessage introduction).question_number = none ∧
      (firstQuestionMessage i2 first_question).question_number = some 1) ∨
    (∃ content telemetry reply,
      sysAnswered.messages = sysInProg.messages ++
        [rawCandidateMessage content telemetry, plainAssistantMessage reply] ∧
      (rawCandidateMessage content telemetry).question_number = none ∧
      (plainAssistantMessage reply).question_number = none) ∨
    (∃ i content telemetry evaluation integrity rest,
      sysAnswered.messages = sysInProg.messages ++
        answerCandidateMessage i content telemetry
          (currentQuestionNumber sysInProg.messages) evaluation integrity :: rest ∧
      (answerCandidateMessage i content telemetry
        (currentQuestionNumber sysInProg.messages) evaluation integrity).role =
          "candidate" ∧
      (answerCandidateMessage i content telemetry
        (currentQuestionNumber sysInProg.messages) evaluation integrity).question_number =
          some (currentQuestionNumber sysInProg.messages) ∧
      (answerCandidateMessage i content telemetry
        (currentQuestionNumber sysInProg.messages) evaluation integrity).answer_quality_score =
          some evaluation.score ∧
      ((rest = [closingMessage] ∧ closingMessage.question_number = none) ∨
       rest = [] ∨
       (∃ next_question,
         rest = [nextQuestionMessage i next_question
           (currentQuestionNumber sysInProg.messages)] ∧
         (nextQuestionMessage i next_question
           (currentQuestionNumber sysInProg.messages)).question_number =
             some (currentQuestionNumber sysInProg.messages + 1)))) := by
  exact question_number_stamped (Op.processMessageOp Cans "ans" telDemo)
    sysInProg sysAnswered rfl

end AIInterviewer
